import Mathlib

/-
Verification of the Azure Scheduler Job Collection resource implementation
and of the vendored MySQL CheckNameAvailability client.

The Go source is shallowly embedded:
  * the quota expand/flatten helpers become pure Lean functions on a
    structure mirroring the Terraform quota block and the SDK structs;
  * the CRUD handlers become state transformers parameterised by an
    oracle (`SchedulerClient`) supplying the outcome of each SDK call,
    and additionally return the trace of SDK calls they performed;
  * Go `int32(v)` conversions are modelled by explicit wrapping on `Int`;
  * a nil-pointer dereference (Go panic) is modelled by an `Option`
    result, `none` meaning the handler crashes instead of returning.
-/

/-- Go conversion `int32(v)` of a (64-bit) `int` value: wraps modulo 2^32
into the interval [-2^31, 2^31). -/
def toInt32 (v : Int) : Int := (v + 2 ^ 31) % 2 ^ 32 - 2 ^ 31

theorem toInt32_eq_of_range (v : Int) (h1 : -2 ^ 31 ≤ v) (h2 : v < 2 ^ 31) :
    toInt32 v = v := by
  unfold toInt32
  omega

/-- One element of the Terraform `quota` block list, mirroring the
`map[string]interface{}` contents: a `none` field models an absent key
(a failed Go type assertion). -/
structure QuotaBlock where
  max_job_count : Option Int
  max_recurrence_frequency : Option String
  max_retry_interval : Option Int
deriving DecidableEq, Repr

/-- SDK struct `scheduler.JobMaxRecurrence`: `Frequency` is a string enum
whose Go zero value is the empty string, `Interval` is `*int32`. -/
structure JobMaxRecurrence where
  Frequency : String
  Interval : Option Int
deriving DecidableEq, Repr

/-- SDK struct `scheduler.JobCollectionQuota`: `MaxJobCount` is `*int32`,
`MaxRecurrence` is `*scheduler.JobMaxRecurrence`. -/
structure JobCollectionQuota where
  MaxJobCount : Option Int
  MaxRecurrence : Option JobMaxRecurrence
deriving DecidableEq, Repr

/-- Embedding of `expandAzureArmSchedulerJobCollectionQuota`: the argument
is the `quota` list read from the resource data; an empty list (or a failed
type assertion, which also yields no usable block) produces a nil pointer.
Otherwise the first block is expanded, converting the ints with `int32(v)`
and leaving the frequency at its zero value when the key is absent. -/
def expandAzureArmSchedulerJobCollectionQuota (qb : List QuotaBlock) :
    Option JobCollectionQuota :=
  match qb with
  | [] => none
  | b :: _ =>
    some
      { MaxJobCount := b.max_job_count.map (fun v => toInt32 v)
        MaxRecurrence :=
          some
            { Frequency := b.max_recurrence_frequency.getD ""
              Interval := b.max_retry_interval.map (fun v => toInt32 v) } }

/-- Embedding of `flattenAzureArmSchedulerJobCollectionQuota`: a nil quota
flattens to the empty list; otherwise to a single block carrying the
present fields (`max_recurrence_frequency` is always set when
`MaxRecurrence` is non-nil). -/
def flattenAzureArmSchedulerJobCollectionQuota
    (quota : Option JobCollectionQuota) : List QuotaBlock :=
  match quota with
  | none => []
  | some q =>
    [{ max_job_count := q.MaxJobCount
       max_recurrence_frequency :=
         match q.MaxRecurrence with
         | some r => some r.Frequency
         | none => none
       max_retry_interval :=
         match q.MaxRecurrence with
         | some r => r.Interval
         | none => none }]

/-- C1 (counterexample): the round trip is NOT the identity on every quota
block with all known fields present: a `max_job_count` of 2^31 (accepted by
the schema validation `IntAtLeast(0)`) is truncated by the `int32(v)`
conversion in the expand step, so the flattened block differs from the
original. -/
theorem c1_counterexample :
    flattenAzureArmSchedulerJobCollectionQuota
        (expandAzureArmSchedulerJobCollectionQuota
          [{ max_job_count := some (2 ^ 31)
             max_recurrence_frequency := some "Month"
             max_retry_interval := some 1 }]) ≠
      [{ max_job_count := some (2 ^ 31)
         max_recurrence_frequency := some "Month"
         max_retry_interval := some 1 }] := by
  decide

/-- C1 (amended): for a quota block whose known fields are all present and
whose integer fields lie in the signed 32-bit range, flattening the
expansion of the one-block list returns exactly the original block as a
one-element list. -/
theorem c1_quota_round_trip (b : QuotaBlock) (jc ri : Int) (f : String)
    (hjc : b.max_job_count = some jc)
    (hf : b.max_recurrence_frequency = some f)
    (hri : b.max_retry_interval = some ri)
    (hjc1 : -2 ^ 31 ≤ jc) (hjc2 : jc < 2 ^ 31)
    (hri1 : -2 ^ 31 ≤ ri) (hri2 : ri < 2 ^ 31) :
    flattenAzureArmSchedulerJobCollectionQuota
        (expandAzureArmSchedulerJobCollectionQuota [b]) = [b] := by
  cases b
  simp only [QuotaBlock.mk.injEq] at hjc hf hri
  subst hjc hf hri
  simp [expandAzureArmSchedulerJobCollectionQuota,
    flattenAzureArmSchedulerJobCollectionQuota, Option.map, Option.getD,
    toInt32_eq_of_range jc hjc1 hjc2, toInt32_eq_of_range ri hri1 hri2]

/-- C1 (witness for the amended theorem): a concrete in-range block
round-trips unchanged. -/
theorem c1_quota_round_trip_witness :
    flattenAzureArmSchedulerJobCollectionQuota
        (expandAzureArmSchedulerJobCollectionQuota
          [{ max_job_count := some 5
             max_recurrence_frequency := some "Hour"
             max_retry_interval := some 12 }]) =
      [{ max_job_count := some 5
         max_recurrence_frequency := some "Hour"
         max_retry_interval := some 12 }] :=
  c1_quota_round_trip _ 5 12 "Hour" rfl rfl rfl
    (by decide) (by decide) (by decide) (by decide)

/-- C10: absence round-trips as absence: the expansion is nil exactly when
the quota block list is empty, the flattening is the empty list exactly
when the quota is nil, and every non-nil quota flattens to a one-element
list. -/
theorem c10_quota_absence :
    (∀ qb : List QuotaBlock,
        expandAzureArmSchedulerJobCollectionQuota qb = none ↔ qb = []) ∧
    (∀ q : Option JobCollectionQuota,
        flattenAzureArmSchedulerJobCollectionQuota q = [] ↔ q = none) ∧
    (∀ j : JobCollectionQuota,
        (flattenAzureArmSchedulerJobCollectionQuota (some j)).length = 1) := by
  refine ⟨?_, ?_, ?_⟩
  · intro qb
    cases qb <;> simp [expandAzureArmSchedulerJobCollectionQuota]
  · intro q
    cases q <;> simp [flattenAzureArmSchedulerJobCollectionQuota]
  · intro j
    simp [flattenAzureArmSchedulerJobCollectionQuota]

/-- HTTP response as observed by the not-found helpers: only the status
code is inspected. -/
structure HttpResponse where
  statusCode : Nat
deriving DecidableEq, Repr

/-- Modelled from the spec: the helpers `utils.ResponseWasNotFound` and
`response.WasNotFound` (outside the embedded sources) report whether a
non-nil HTTP response carries status 404 Not Found. -/
def wasNotFound : Option HttpResponse → Bool
  | none => false
  | some r => r.statusCode == 404

/-- SDK struct `scheduler.Sku`. -/
structure Sku where
  Name : String
deriving DecidableEq, Repr

/-- SDK struct `scheduler.JobCollectionProperties` (`State` is a string
enum, `Sku` and `Quota` are pointers). -/
structure JobCollectionProperties where
  Sku : Option Sku
  State : String
  Quota : Option JobCollectionQuota
deriving DecidableEq, Repr

/-- SDK struct `scheduler.JobCollectionDefinition`: `ID`, `Name` and
`Location` are `*string`, `Tags` a string map, `Properties` a pointer. -/
structure JobCollectionDefinition where
  ID : Option String
  Name : Option String
  Location : Option String
  Tags : List (String × String)
  Properties : Option JobCollectionProperties
deriving DecidableEq, Repr

/-- Terraform resource data for this resource: the flat schema fields plus
the resource ID.  `d.Get` on an unset field returns the Go zero value, so
the scalar fields are plain strings. -/
structure ResourceState where
  id : String
  name : String
  location : String
  resource_group_name : String
  sku : String
  state : String
  quota : List QuotaBlock
  tags : List (String × String)
deriving DecidableEq, Repr

/-- Outcome of an SDK call returning a `JobCollectionDefinition`: the
returned struct, the HTTP response embedded in it, and the Go error. -/
structure GetOutcome where
  collection : JobCollectionDefinition
  response : Option HttpResponse
  err : Option String
deriving Repr

/-- Outcome of `client.Delete` followed by `future.WaitForCompletion`:
errors of the two steps and the future's response as observed at each of
the two `response.WasNotFound(future.Response())` checks. -/
structure DeleteOutcome where
  deleteErr : Option String
  responseAfterDelete : Option HttpResponse
  waitErr : Option String
  responseAfterWait : Option HttpResponse
deriving Repr

/-- Oracle for the scheduler job collections SDK client: each field gives
the outcome of one call (arguments: resource group, name, and for
create-or-update the request body). -/
structure SchedulerClient where
  createOrUpdate : String → String → JobCollectionDefinition → GetOutcome
  get : String → String → GetOutcome
  delete : String → String → DeleteOutcome

/-- One SDK call performed by a CRUD handler, in order of occurrence. -/
inductive ArmCall
  | createOrUpdate
  | get
  | delete
  | waitForCompletion
deriving DecidableEq, Repr

/-- Modelled from the spec: `azureRMNormalizeLocation` (outside the
embedded sources) normalizes an Azure location string; the claims do not
depend on its exact behaviour, modelled as lowercasing and removing
spaces. -/
def azureRMNormalizeLocation (s : String) : String :=
  (s.replace " " "").toLower

/-- Error message of the `CreateOrUpdate` failure branch
(`fmt.Errorf("Error creating/updating Scheduler Job Collection %q
(Resource Group %q): %+v", ...)`). -/
def createErrMsg (name resourceGroup e : String) : String :=
  "Error creating/updating Scheduler Job Collection \"" ++ name ++
    "\" (Resource Group \"" ++ resourceGroup ++ "\"): " ++ e

/-- Error message of the Get-after-create failure branch. -/
def createGetErrMsg (name resourceGroup e : String) : String :=
  "Error reading Scheduler Job Collection \"" ++ name ++
    "\" after create/update (Resource Group \"" ++ resourceGroup ++
    "\"): " ++ e

/-- Error message of the Read failure branch. -/
def readErrMsg (name resourceGroup e : String) : String :=
  "Error making Read request on Scheduler Job Collection \"" ++ name ++
    "\" (Resource Group \"" ++ resourceGroup ++ "\"): " ++ e

/-- Error message of the Delete-call failure branch. -/
def deleteErrMsg (name resourceGroup e : String) : String :=
  "Error issuing delete request for Scheduler Job Collection \"" ++ name ++
    "\" (Resource Group \"" ++ resourceGroup ++ "\"): " ++ e

/-- Error message of the wait-for-completion failure branch. -/
def deleteWaitErrMsg (name resourceGroup e : String) : String :=
  "Error waiting for deletion of Scheduler Job Collection \"" ++ name ++
    "\" (Resource Group \"" ++ resourceGroup ++ "\"): " ++ e

/-- Embedding of lines 117-130 of the handler: the
`scheduler.JobCollectionDefinition` request body built from the
configuration before calling `CreateOrUpdate`. -/
def buildJobCollectionDefinition (d : ResourceState) : JobCollectionDefinition :=
  { ID := none
    Name := none
    Location := some d.location
    Tags := d.tags
    Properties :=
      some
        { Sku := some { Name := d.sku }
          State := d.state
          Quota := expandAzureArmSchedulerJobCollectionQuota d.quota } }

/-- Embedding of `resourceArmSchedulerJobCollectionPopulate`: sets the
standard and resource-specific fields from the SDK response.  The Go code
dereferences `*resp.Location`, so a nil `Location` is a panic, modelled by
`none`.  The `d.Set` calls cannot fail in the model, so the handler's own
error returns do not occur. -/
def resourceArmSchedulerJobCollectionPopulate (d : ResourceState)
    (resourceGroup : String) (resp : JobCollectionDefinition) :
    Option ResourceState :=
  match resp.Location with
  | none => none
  | some loc =>
    let d1 := { d with
      name := resp.Name.getD ""
      location := azureRMNormalizeLocation loc
      resource_group_name := resourceGroup }
    let d2 :=
      match resp.Properties with
      | none => d1
      | some properties =>
        let da :=
          match properties.Sku with
          | none => d1
          | some sku => { d1 with sku := sku.Name }
        { da with
          state := properties.State
          quota := flattenAzureArmSchedulerJobCollectionQuota properties.Quota }
    some { d2 with tags := resp.Tags }

theorem populate_preserves_id (d : ResourceState) (resourceGroup : String)
    (resp : JobCollectionDefinition) (d2 : ResourceState)
    (h : resourceArmSchedulerJobCollectionPopulate d resourceGroup resp = some d2) :
    d2.id = d.id := by
  unfold resourceArmSchedulerJobCollectionPopulate at h
  cases hl : resp.Location with
  | none => rw [hl] at h; exact absurd h (by simp)
  | some loc =>
    rw [hl] at h
    simp only [Option.some.injEq] at h
    subst h
    cases hp : resp.Properties with
    | none => simp [hp]
    | some properties =>
      cases hs : properties.Sku <;> simp [hp, hs]

/-- Embedding of `resourceArmSchedulerJobCollectionCreateUpdate`.  The
handler reads the configuration from `d`, builds the request body, calls
`CreateOrUpdate`, then `Get`, sets the resource ID from the Get result and
populates the state.  The result is `none` when the Go code panics
(dereferencing a nil `ID` or `Location`); otherwise it is the returned
error (if any) paired with the resource data as left by the handler, plus
the trace of SDK calls performed. -/
def resourceArmSchedulerJobCollectionCreateUpdate (client : SchedulerClient)
    (d : ResourceState) :
    Option (Option String × ResourceState) × List ArmCall :=
  let name := d.name
  let resourceGroup := d.resource_group_name
  let collection := buildJobCollectionDefinition d
  let out1 := client.createOrUpdate resourceGroup name collection
  match out1.err with
  | some e =>
    (some (some (createErrMsg name resourceGroup e), d), [ArmCall.createOrUpdate])
  | none =>
    let out2 := client.get resourceGroup name
    match out2.err with
    | some e =>
      (some (some (createGetErrMsg name resourceGroup e), d),
        [ArmCall.createOrUpdate, ArmCall.get])
    | none =>
      match out2.collection.ID with
      | none => (none, [ArmCall.createOrUpdate, ArmCall.get])
      | some i =>
        match resourceArmSchedulerJobCollectionPopulate { d with id := i }
            resourceGroup out2.collection with
        | none => (none, [ArmCall.createOrUpdate, ArmCall.get])
        | some d2 =>
          (some (none, d2), [ArmCall.createOrUpdate, ArmCall.get])

/-- Embedding of `resourceArmSchedulerJobCollectionRead`.  `name` and
`resourceGroup` stand for the components parsed from the resource ID. -/
def resourceArmSchedulerJobCollectionRead (client : SchedulerClient)
    (name resourceGroup : String) (d : ResourceState) :
    Option (Option String × ResourceState) × List ArmCall :=
  let out := client.get resourceGroup name
  match out.err with
  | some e =>
    if wasNotFound out.response then
      (some (none, { d with id := "" }), [ArmCall.get])
    else
      (some (some (readErrMsg name resourceGroup e), d), [ArmCall.get])
  | none =>
    match resourceArmSchedulerJobCollectionPopulate d resourceGroup
        out.collection with
    | none => (none, [ArmCall.get])
    | some d2 => (some (none, d2), [ArmCall.get])

/-- Embedding of `resourceArmSchedulerJobCollectionDelete`: issues the
Delete call; a failure whose response is not 404 aborts; otherwise the
handler always proceeds to `future.WaitForCompletion`, whose failure is
likewise tolerated exactly when the future's response is 404. -/
def resourceArmSchedulerJobCollectionDelete (client : SchedulerClient)
    (name resourceGroup : String) : Option String × List ArmCall :=
  let future := client.delete resourceGroup name
  let afterWait : Option String × List ArmCall :=
    match future.waitErr with
    | some e =>
      if wasNotFound future.responseAfterWait then
        (none, [ArmCall.delete, ArmCall.waitForCompletion])
      else
        (some (deleteWaitErrMsg name resourceGroup e),
          [ArmCall.delete, ArmCall.waitForCompletion])
    | none => (none, [ArmCall.delete, ArmCall.waitForCompletion])
  match future.deleteErr with
  | some e =>
    if wasNotFound future.responseAfterDelete then afterWait
    else (some (deleteErrMsg name resourceGroup e), [ArmCall.delete])
  | none => afterWait

/-- The wrapped error message `m` mentions the collection name and the
resource group as substrings and carries the original SDK error verbatim
as its suffix (the `%+v` verb at the end of the format string). -/
def wrapsError (m name resourceGroup e : String) : Prop :=
  (∃ a b : String, m = a ++ name ++ b) ∧
  (∃ a b : String, m = a ++ resourceGroup ++ b) ∧
  (∃ a : String, m = a ++ e)

theorem createErrMsg_wraps (n g e : String) :
    wrapsError (createErrMsg n g e) n g e := by
  refine ⟨⟨"Error creating/updating Scheduler Job Collection \"",
      "\" (Resource Group \"" ++ g ++ "\"): " ++ e, ?_⟩,
    ⟨"Error creating/updating Scheduler Job Collection \"" ++ n ++
        "\" (Resource Group \"", "\"): " ++ e, ?_⟩,
    ⟨"Error creating/updating Scheduler Job Collection \"" ++ n ++
        "\" (Resource Group \"" ++ g ++ "\"): ", ?_⟩⟩ <;>
  simp [createErrMsg, String.append_assoc]

theorem createGetErrMsg_wraps (n g e : String) :
    wrapsError (createGetErrMsg n g e) n g e := by
  refine ⟨⟨"Error reading Scheduler Job Collection \"",
      "\" after create/update (Resource Group \"" ++ g ++ "\"): " ++ e, ?_⟩,
    ⟨"Error reading Scheduler Job Collection \"" ++ n ++
        "\" after create/update (Resource Group \"", "\"): " ++ e, ?_⟩,
    ⟨"Error reading Scheduler Job Collection \"" ++ n ++
        "\" after create/update (Resource Group \"" ++ g ++ "\"): ", ?_⟩⟩ <;>
  simp [createGetErrMsg, String.append_assoc]

theorem readErrMsg_wraps (n g e : String) :
    wrapsError (readErrMsg n g e) n g e := by
  refine ⟨⟨"Error making Read request on Scheduler Job Collection \"",
      "\" (Resource Group \"" ++ g ++ "\"): " ++ e, ?_⟩,
    ⟨"Error making Read request on Scheduler Job Collection \"" ++ n ++
        "\" (Resource Group \"", "\"): " ++ e, ?_⟩,
    ⟨"Error making Read request on Scheduler Job Collection \"" ++ n ++
        "\" (Resource Group \"" ++ g ++ "\"): ", ?_⟩⟩ <;>
  simp [readErrMsg, String.append_assoc]

theorem deleteErrMsg_wraps (n g e : String) :
    wrapsError (deleteErrMsg n g e) n g e := by
  refine ⟨⟨"Error issuing delete request for Scheduler Job Collection \"",
      "\" (Resource Group \"" ++ g ++ "\"): " ++ e, ?_⟩,
    ⟨"Error issuing delete request for Scheduler Job Collection \"" ++ n ++
        "\" (Resource Group \"", "\"): " ++ e, ?_⟩,
    ⟨"Error issuing delete request for Scheduler Job Collection \"" ++ n ++
        "\" (Resource Group \"" ++ g ++ "\"): ", ?_⟩⟩ <;>
  simp [deleteErrMsg, String.append_assoc]

theorem deleteWaitErrMsg_wraps (n g e : String) :
    wrapsError (deleteWaitErrMsg n g e) n g e := by
  refine ⟨⟨"Error waiting for deletion of Scheduler Job Collection \"",
      "\" (Resource Group \"" ++ g ++ "\"): " ++ e, ?_⟩,
    ⟨"Error waiting for deletion of Scheduler Job Collection \"" ++ n ++
        "\" (Resource Group \"", "\"): " ++ e, ?_⟩,
    ⟨"Error waiting for deletion of Scheduler Job Collection \"" ++ n ++
        "\" (Resource Group \"" ++ g ++ "\"): ", ?_⟩⟩ <;>
  simp [deleteWaitErrMsg, String.append_assoc]

/-- Empty SDK struct (all pointers nil), the Go zero value returned
alongside an error. -/
def emptyJobCollection : JobCollectionDefinition :=
  { ID := none, Name := none, Location := none, Tags := [], Properties := none }

/-- Sample resource data used by the concrete witnesses. -/
def sampleState : ResourceState :=
  { id := "", name := "jc1", location := "West US",
    resource_group_name := "rg1", sku := "Standard", state := "Enabled",
    quota := [], tags := [] }

/-- Sample SDK response used by the concrete witnesses. -/
def sampleCollection : JobCollectionDefinition :=
  { ID := some "id-123", Name := some "jc1", Location := some "West US",
    Tags := [],
    Properties :=
      some { Sku := some { Name := "Standard" }, State := "Enabled",
             Quota := none } }

/-- Oracle on which every SDK call succeeds. -/
def okSchedulerClient : SchedulerClient :=
  { createOrUpdate := fun _ _ _ =>
      { collection := sampleCollection, response := some { statusCode := 200 },
        err := none }
    get := fun _ _ =>
      { collection := sampleCollection, response := some { statusCode := 200 },
        err := none }
    delete := fun _ _ =>
      { deleteErr := none, responseAfterDelete := some { statusCode := 200 },
        waitErr := none, responseAfterWait := some { statusCode := 200 } } }

/-- Oracle on which every SDK call fails with a 404 Not Found response. -/
def notFoundSchedulerClient : SchedulerClient :=
  { createOrUpdate := fun _ _ _ =>
      { collection := emptyJobCollection,
        response := some { statusCode := 404 }, err := some "ResourceNotFound" }
    get := fun _ _ =>
      { collection := emptyJobCollection,
        response := some { statusCode := 404 }, err := some "ResourceNotFound" }
    delete := fun _ _ =>
      { deleteErr := some "ResourceNotFound",
        responseAfterDelete := some { statusCode := 404 },
        waitErr := some "ResourceNotFound",
        responseAfterWait := some { statusCode := 404 } } }

/-- Oracle on which every SDK call fails with a 500 response. -/
def failingSchedulerClient : SchedulerClient :=
  { createOrUpdate := fun _ _ _ =>
      { collection := emptyJobCollection,
        response := some { statusCode := 500 },
        err := some "InternalServerError" }
    get := fun _ _ =>
      { collection := emptyJobCollection,
        response := some { statusCode := 500 },
        err := some "InternalServerError" }
    delete := fun _ _ =>
      { deleteErr := some "InternalServerError",
        responseAfterDelete := some { statusCode := 500 },
        waitErr := some "InternalServerError",
        responseAfterWait := some { statusCode := 500 } } }

/-- Oracle on which the Delete call fails with a tolerated 404 and the
wait for completion then fails with a 500 response. -/
def mixedDeleteSchedulerClient : SchedulerClient :=
  { createOrUpdate := fun _ _ _ =>
      { collection := emptyJobCollection,
        response := some { statusCode := 404 }, err := some "ResourceNotFound" }
    get := fun _ _ =>
      { collection := emptyJobCollection,
        response := some { statusCode := 404 }, err := some "ResourceNotFound" }
    delete := fun _ _ =>
      { deleteErr := some "ResourceNotFound",
        responseAfterDelete := some { statusCode := 404 },
        waitErr := some "InternalServerError",
        responseAfterWait := some { statusCode := 500 } } }

/-- C2: when the Get call fails and its response is 404 Not Found, the
read handler clears the resource ID, changes no other field of the state,
performs no further work and returns nil. -/
theorem c2_read_clears_state_on_not_found (client : SchedulerClient)
    (name resourceGroup : String) (d : ResourceState) (e : String)
    (herr : (client.get resourceGroup name).err = some e)
    (hnf : wasNotFound (client.get resourceGroup name).response = true) :
    resourceArmSchedulerJobCollectionRead client name resourceGroup d =
      (some (none, { d with id := "" }), [ArmCall.get]) := by
  simp [resourceArmSchedulerJobCollectionRead, herr, hnf]

/-- C2 (witness): a concrete 404-failing Get clears the ID and succeeds. -/
theorem c2_read_clears_state_on_not_found_witness :
    resourceArmSchedulerJobCollectionRead notFoundSchedulerClient
        "jc1" "rg1" sampleState =
      (some (none, { sampleState with id := "" }), [ArmCall.get]) :=
  c2_read_clears_state_on_not_found notFoundSchedulerClient "jc1" "rg1"
    sampleState "ResourceNotFound" rfl rfl

/-- C3: the delete handler is idempotent against already-deleted
resources: if every failing step (the Delete call, the wait for
completion) observes a 404 Not Found response on the future, the handler
returns nil. -/
theorem c3_delete_idempotent (client : SchedulerClient)
    (name resourceGroup : String)
    (h1 : ∀ e, (client.delete resourceGroup name).deleteErr = some e →
      wasNotFound (client.delete resourceGroup name).responseAfterDelete = true)
    (h2 : ∀ e, (client.delete resourceGroup name).waitErr = some e →
      wasNotFound (client.delete resourceGroup name).responseAfterWait = true) :
    (resourceArmSchedulerJobCollectionDelete client name resourceGroup).1 =
      none := by
  unfold resourceArmSchedulerJobCollectionDelete
  cases hd : (client.delete resourceGroup name).deleteErr with
  | none =>
    cases hw : (client.delete resourceGroup name).waitErr with
    | none => simp [hd, hw]
    | some e => simp [hd, hw, h2 e hw]
  | some e =>
    cases hw : (client.delete resourceGroup name).waitErr with
    | none => simp [hd, hw, h1 e hd]
    | some e2 => simp [hd, hw, h1 e hd, h2 e2 hw]

/-- C3 (witness): both the Delete call and the wait fail against an
already-deleted resource (404) and the handler still returns nil. -/
theorem c3_delete_idempotent_witness :
    (resourceArmSchedulerJobCollectionDelete notFoundSchedulerClient
        "jc1" "rg1").1 = none :=
  c3_delete_idempotent notFoundSchedulerClient "jc1" "rg1"
    (fun _ _ => rfl) (fun _ _ => rfl)

/-- C4: each handler wraps a non-not-found SDK error in a message that
contains the collection name and the resource group and ends with the
original error verbatim, leaving the state unchanged: this covers the
CreateOrUpdate error, the Get-after-create error, the Read error, the
Delete-call error and the wait-for-completion error — the latter on every
run reaching the wait step, whether the Delete call succeeded or failed
with a tolerated 404. -/
theorem c4_error_wrapping :
    (∀ (client : SchedulerClient) (d : ResourceState) (e : String),
      (client.createOrUpdate d.resource_group_name d.name
          (buildJobCollectionDefinition d)).err = some e →
      ∃ m, (resourceArmSchedulerJobCollectionCreateUpdate client d).1 =
          some (some m, d) ∧ wrapsError m d.name d.resource_group_name e) ∧
    (∀ (client : SchedulerClient) (d : ResourceState) (e : String),
      (client.createOrUpdate d.resource_group_name d.name
          (buildJobCollectionDefinition d)).err = none →
      (client.get d.resource_group_name d.name).err = some e →
      ∃ m, (resourceArmSchedulerJobCollectionCreateUpdate client d).1 =
          some (some m, d) ∧ wrapsError m d.name d.resource_group_name e) ∧
    (∀ (client : SchedulerClient) (name resourceGroup : String)
        (d : ResourceState) (e : String),
      (client.get resourceGroup name).err = some e →
      wasNotFound (client.get resourceGroup name).response = false →
      ∃ m, (resourceArmSchedulerJobCollectionRead client name resourceGroup
            d).1 = some (some m, d) ∧ wrapsError m name resourceGroup e) ∧
    (∀ (client : SchedulerClient) (name resourceGroup e : String),
      (client.delete resourceGroup name).deleteErr = some e →
      wasNotFound (client.delete resourceGroup name).responseAfterDelete =
        false →
      ∃ m, (resourceArmSchedulerJobCollectionDelete client name
            resourceGroup).1 = some m ∧ wrapsError m name resourceGroup e) ∧
    (∀ (client : SchedulerClient) (name resourceGroup e : String),
      (∀ e2, (client.delete resourceGroup name).deleteErr = some e2 →
        wasNotFound (client.delete resourceGroup name).responseAfterDelete =
          true) →
      (client.delete resourceGroup name).waitErr = some e →
      wasNotFound (client.delete resourceGroup name).responseAfterWait =
        false →
      ∃ m, (resourceArmSchedulerJobCollectionDelete client name
            resourceGroup).1 = some m ∧ wrapsError m name resourceGroup e) := by
  refine ⟨?_, ?_, ?_, ?_, ?_⟩
  · intro client d e h
    exact ⟨createErrMsg d.name d.resource_group_name e,
      by simp [resourceArmSchedulerJobCollectionCreateUpdate, h],
      createErrMsg_wraps _ _ _⟩
  · intro client d e h1 h2
    exact ⟨createGetErrMsg d.name d.resource_group_name e,
      by simp [resourceArmSchedulerJobCollectionCreateUpdate, h1, h2],
      createGetErrMsg_wraps _ _ _⟩
  · intro client name resourceGroup d e h1 h2
    exact ⟨readErrMsg name resourceGroup e,
      by simp [resourceArmSchedulerJobCollectionRead, h1, h2],
      readErrMsg_wraps _ _ _⟩
  · intro client name resourceGroup e h1 h2
    exact ⟨deleteErrMsg name resourceGroup e,
      by simp [resourceArmSchedulerJobCollectionDelete, h1, h2],
      deleteErrMsg_wraps _ _ _⟩
  · intro client name resourceGroup e h1 h2 h3
    refine ⟨deleteWaitErrMsg name resourceGroup e, ?_,
      deleteWaitErrMsg_wraps _ _ _⟩
    cases hd : (client.delete resourceGroup name).deleteErr with
    | none => simp [resourceArmSchedulerJobCollectionDelete, hd, h2, h3]
    | some e2 =>
      simp [resourceArmSchedulerJobCollectionDelete, hd, h1 e2 hd, h2, h3]

/-- C4 (witness): a concrete 500 Get failure yields a read error wrapping
the SDK error, and on the mixed delete run — Delete fails with a
tolerated 404, the wait then fails with a 500 — the handler wraps the
wait error; both messages name the collection and resource group. -/
theorem c4_error_wrapping_witness :
    (∃ m, (resourceArmSchedulerJobCollectionRead failingSchedulerClient
        "jc1" "rg1" sampleState).1 = some (some m, sampleState) ∧
      wrapsError m "jc1" "rg1" "InternalServerError") ∧
    (∃ m, (resourceArmSchedulerJobCollectionDelete mixedDeleteSchedulerClient
        "jc1" "rg1").1 = some m ∧
      wrapsError m "jc1" "rg1" "InternalServerError") :=
  ⟨c4_error_wrapping.2.2.1 failingSchedulerClient "jc1" "rg1" sampleState
      "InternalServerError" rfl rfl,
    c4_error_wrapping.2.2.2.2 mixedDeleteSchedulerClient "jc1" "rg1"
      "InternalServerError" (fun _ _ => rfl) rfl rfl⟩

/-- C5 (counterexample): a fully successful create/update performs TWO
client calls (CreateOrUpdate followed by the verification Get), not one,
so no CRUD handler of this resource performs exactly one client call per
invocation. -/
theorem c5_counterexample :
    (resourceArmSchedulerJobCollectionCreateUpdate okSchedulerClient
        sampleState).2 = [ArmCall.createOrUpdate, ArmCall.get] ∧
      ([ArmCall.createOrUpdate, ArmCall.get] : List ArmCall).length ≠ 1 := by
  exact ⟨rfl, by decide⟩

/-- C5 (amended): each handler performs a fixed, synchronous sequence of
awaited client calls: read performs exactly one Get; create/update
performs one CreateOrUpdate and, unless that call fails, one Get (two
calls on success); delete performs one Delete call and, unless that call
fails with a non-404 response, one wait-for-completion step. -/
theorem c5_call_sequence (client : SchedulerClient)
    (name resourceGroup : String) (d : ResourceState) :
    (resourceArmSchedulerJobCollectionRead client name resourceGroup d).2 =
        [ArmCall.get] ∧
    (resourceArmSchedulerJobCollectionCreateUpdate client d).2 =
      (if (client.createOrUpdate d.resource_group_name d.name
            (buildJobCollectionDefinition d)).err.isSome
       then [ArmCall.createOrUpdate]
       else [ArmCall.createOrUpdate, ArmCall.get]) ∧
    (resourceArmSchedulerJobCollectionDelete client name resourceGroup).2 =
      (if (client.delete resourceGroup name).deleteErr.isSome &&
            !wasNotFound (client.delete resourceGroup name).responseAfterDelete
       then [ArmCall.delete]
       else [ArmCall.delete, ArmCall.waitForCompletion]) := by
  refine ⟨?_, ?_, ?_⟩
  · unfold resourceArmSchedulerJobCollectionRead
    cases h : (client.get resourceGroup name).err with
    | none =>
      cases hp : resourceArmSchedulerJobCollectionPopulate d resourceGroup
          (client.get resourceGroup name).collection <;> simp [h, hp]
    | some e =>
      cases hnf : wasNotFound (client.get resourceGroup name).response <;>
        simp [h, hnf]
  · unfold resourceArmSchedulerJobCollectionCreateUpdate
    cases h1 : (client.createOrUpdate d.resource_group_name d.name
        (buildJobCollectionDefinition d)).err with
    | some e => simp [h1]
    | none =>
      cases h2 : (client.get d.resource_group_name d.name).err with
      | some e => simp [h1, h2]
      | none =>
        cases h3 : (client.get d.resource_group_name d.name).collection.ID with
        | none => simp [h1, h2, h3]
        | some i =>
          cases hp : resourceArmSchedulerJobCollectionPopulate
              { d with id := i } d.resource_group_name
              (client.get d.resource_group_name d.name).collection <;>
            simp [h1, h2, h3, hp]
  · unfold resourceArmSchedulerJobCollectionDelete
    cases hd : (client.delete resourceGroup name).deleteErr with
    | none =>
      cases hw : (client.delete resourceGroup name).waitErr with
      | none => simp [hd, hw]
      | some e =>
        cases hnf : wasNotFound
            (client.delete resourceGroup name).responseAfterWait <;>
          simp [hd, hw, hnf]
    | some e =>
      cases hnfd : wasNotFound
          (client.delete resourceGroup name).responseAfterDelete with
      | false => simp [hd, hnfd]
      | true =>
        cases hw : (client.delete resourceGroup name).waitErr with
        | none => simp [hd, hnfd, hw]
        | some e2 =>
          cases hnf : wasNotFound
              (client.delete resourceGroup name).responseAfterWait <;>
            simp [hd, hnfd, hw, hnf]

/-- C6: the create/update handler sets the resource ID to the ID of the
collection returned by the follow-up Get, and only after both the
CreateOrUpdate and the Get call succeed; if either call fails it returns
an error and leaves the resource data, in particular the ID, unchanged. -/
theorem c6_create_update_sets_id (client : SchedulerClient)
    (d : ResourceState) :
    (∀ e, (client.createOrUpdate d.resource_group_name d.name
          (buildJobCollectionDefinition d)).err = some e →
      ∃ m, (resourceArmSchedulerJobCollectionCreateUpdate client d).1 =
        some (some m, d)) ∧
    (∀ e, (client.createOrUpdate d.resource_group_name d.name
          (buildJobCollectionDefinition d)).err = none →
      (client.get d.resource_group_name d.name).err = some e →
      ∃ m, (resourceArmSchedulerJobCollectionCreateUpdate client d).1 =
        some (some m, d)) ∧
    (∀ i loc,
      (client.createOrUpdate d.resource_group_name d.name
          (buildJobCollectionDefinition d)).err = none →
      (client.get d.resource_group_name d.name).err = none →
      (client.get d.resource_group_name d.name).collection.ID = some i →
      (client.get d.resource_group_name d.name).collection.Location =
        some loc →
      ∃ d2, (resourceArmSchedulerJobCollectionCreateUpdate client d).1 =
        some (none, d2) ∧ d2.id = i) := by
  refine ⟨?_, ?_, ?_⟩
  · intro e h
    exact ⟨createErrMsg d.name d.resource_group_name e,
      by simp [resourceArmSchedulerJobCollectionCreateUpdate, h]⟩
  · intro e h1 h2
    exact ⟨createGetErrMsg d.name d.resource_group_name e,
      by simp [resourceArmSchedulerJobCollectionCreateUpdate, h1, h2]⟩
  · intro i loc h1 h2 h3 h4
    cases hp : resourceArmSchedulerJobCollectionPopulate { d with id := i }
        d.resource_group_name (client.get d.resource_group_name
          d.name).collection with
    | none =>
      exfalso
      unfold resourceArmSchedulerJobCollectionPopulate at hp
      rw [h4] at hp
      simp at hp
    | some d2 =>
      refine ⟨d2, ?_, ?_⟩
      · simp [resourceArmSchedulerJobCollectionCreateUpdate, h1, h2, h3, hp]
      · rw [populate_preserves_id _ _ _ _ hp]

/-- C6 (witness): on a concrete fully successful run the handler returns
nil and the resource ID equals the ID of the collection the Get call
returned. -/
theorem c6_create_update_sets_id_witness :
    ∃ d2, (resourceArmSchedulerJobCollectionCreateUpdate okSchedulerClient
        sampleState).1 = some (none, d2) ∧ d2.id = "id-123" :=
  (c6_create_update_sets_id okSchedulerClient sampleState).2.2 "id-123"
    "West US" rfl rfl rfl rfl

/-- JSON values, the payloads of request and response bodies. -/
inductive Json
  | null
  | str (s : String)
  | num (n : Int)
  | bool (b : Bool)
  | arr (elems : List Json)
  | obj (fields : List (String × Json))

/-- SDK struct `mysql.NameAvailabilityRequest` (modelled from the spec's
ARM REST conventions: both fields are `*string` with omitempty JSON tags;
the Go field `Type` is written `Type'`). -/
structure NameAvailabilityRequest where
  Name : Option String
  Type' : Option String

/-- JSON encoding of a `NameAvailabilityRequest` (nil fields omitted). -/
def encodeNameAvailabilityRequest (r : NameAvailabilityRequest) : Json :=
  Json.obj
    ((match r.Name with
      | some n => [("name", Json.str n)]
      | none => []) ++
     (match r.Type' with
      | some t => [("type", Json.str t)]
      | none => []))

/-- The MySQL `CheckNameAvailabilityClient`: base URI and subscription ID
of the embedded `BaseClient`. -/
structure CheckNameAvailabilityClient where
  BaseURI : String
  SubscriptionID : String

/-- Modelled from the spec: `autorest.Encode("path", ·)` URL-escapes a
path segment; the claims do not depend on the escaping itself (on the
GUID subscription IDs of the ARM conventions it is the identity), so it
is modelled as the identity on strings. -/
def encodePath (s : String) : String := s

/-- The opening brace character of a path-parameter template. -/
def braceOpenChar : Char := Char.ofNat 123

/-- The closing brace character of a path-parameter template. -/
def braceCloseChar : Char := Char.ofNat 125

/-- One piece of a URL path template: literal text or a parameter
reference. -/
inductive PathSeg
  | lit (s : String)
  | par (name : String)

/-- Splits a character list at the first occurrence of `c`, or `none`
when `c` does not occur. -/
def breakAt (c : Char) : List Char → Option (List Char × List Char)
  | [] => none
  | x :: xs =>
    if x == c then some ([], xs)
    else
      match breakAt c xs with
      | none => none
      | some (a, b) => some (x :: a, b)

/-- Parses a path template into literal and parameter segments; the fuel
argument bounds the recursion by the length of the input. -/
def parseTemplateAux : Nat → List Char → List PathSeg
  | _, [] => []
  | 0, cs => [PathSeg.lit cs.asString]
  | Nat.succ n, cs =>
    match breakAt braceOpenChar cs with
    | none => [PathSeg.lit cs.asString]
    | some (pre, rest) =>
      match breakAt braceCloseChar rest with
      | none => [PathSeg.lit cs.asString]
      | some (pname, rest2) =>
        PathSeg.lit pre.asString :: PathSeg.par pname.asString ::
          parseTemplateAux n rest2

/-- Renders parsed segments, substituting each parameter by its value in
the parameter map. -/
def renderSegs (params : List (String × String)) : List PathSeg → String
  | [] => ""
  | PathSeg.lit s :: rest => s ++ renderSegs params rest
  | PathSeg.par n :: rest =>
    (List.lookup n params).getD "" ++ renderSegs params rest

/-- Modelled from the spec: `autorest.WithPathParameters` substitutes
each `\x7bparam\x7d` placeholder of the URL path template by the value
supplied in the parameter map. -/
def withPathParameters (template : String)
    (params : List (String × String)) : String :=
  renderSegs params (parseTemplateAux template.data.length template.data)

/-- The HTTP request assembled by an autorest preparer. -/
structure HttpRequest where
  method : String
  baseURL : String
  urlPath : String
  query : List (String × String)
  body : Option Json

/-- Embedding of `CheckNameAvailabilityClient.ExecutePreparer`: a POST
to the check-name-availability ARM path under the client's subscription,
with the fixed api-version query parameter and the JSON-encoded request
as body. -/
def ExecutePreparer (client : CheckNameAvailabilityClient)
    (nameAvailabilityRequest : NameAvailabilityRequest) : HttpRequest :=
  { method := "POST"
    baseURL := client.BaseURI
    urlPath :=
      withPathParameters
        "/subscriptions/{subscriptionId}/providers/Microsoft.DBforMySQL/checkNameAvailability"
        [("subscriptionId", encodePath client.SubscriptionID)]
    query := [("api-version", "2017-04-30-preview")]
    body := some (encodeNameAvailabilityRequest nameAvailabilityRequest) }

/-- C7: for every client and request, the prepared request is a POST whose
URL path is the check-name-availability path with the client's
subscription ID substituted, whose query carries api-version
2017-04-30-preview, and whose body is the JSON encoding of the request. -/
theorem c7_execute_preparer (client : CheckNameAvailabilityClient)
    (r : NameAvailabilityRequest) :
    ExecutePreparer client r =
      { method := "POST"
        baseURL := client.BaseURI
        urlPath := "/subscriptions/" ++ encodePath client.SubscriptionID ++
          "/providers/Microsoft.DBforMySQL/checkNameAvailability"
        query := [("api-version", "2017-04-30-preview")]
        body := some (encodeNameAvailabilityRequest r) } := by
  have h :
      withPathParameters
          "/subscriptions/{subscriptionId}/providers/Microsoft.DBforMySQL/checkNameAvailability"
          [("subscriptionId", encodePath client.SubscriptionID)] =
        "/subscriptions/" ++ (encodePath client.SubscriptionID ++
          ("/providers/Microsoft.DBforMySQL/checkNameAvailability" ++ "")) :=
    rfl
  unfold ExecutePreparer
  rw [h]
  simp [String.append_assoc]

/-- An HTTP response as seen by the responder: status code and (already
tokenised) JSON body. -/
structure HttpResponseBody where
  statusCode : Nat
  body : Json

/-- SDK struct `mysql.NameAvailability` with the embedded
`autorest.Response` (modelled from the spec: JSON response body fields
`message`, `nameAvailable`, `reason`, all pointers). -/
structure NameAvailability where
  Message : Option String
  NameAvailable : Option Bool
  Reason : Option String
  Response : Option HttpResponseBody

/-- The Go zero value of `NameAvailability`. -/
def emptyNameAvailability : NameAvailability :=
  { Message := none, NameAvailable := none, Reason := none, Response := none }

/-- Modelled from the spec: JSON unmarshalling of an optional string
field, failing on a type mismatch as `json.Unmarshal` does. -/
def decodeStringField (fields : List (String × Json)) (k : String) :
    Except String (Option String) :=
  match List.lookup k fields with
  | none => Except.ok none
  | some (Json.str s) => Except.ok (some s)
  | some Json.null => Except.ok none
  | some _ => Except.error ("json: cannot unmarshal field " ++ k)

/-- Modelled from the spec: JSON unmarshalling of an optional boolean
field, failing on a type mismatch as `json.Unmarshal` does. -/
def decodeBoolField (fields : List (String × Json)) (k : String) :
    Except String (Option Bool) :=
  match List.lookup k fields with
  | none => Except.ok none
  | some (Json.bool b) => Except.ok (some b)
  | some Json.null => Except.ok none
  | some _ => Except.error ("json: cannot unmarshal field " ++ k)

/-- Modelled from the spec: `autorest.ByUnmarshallingJSON` decoding of the
response body into a `NameAvailability`: a JSON object populates the
fields, JSON null leaves the zero value, anything else is an unmarshal
error. -/
def decodeNameAvailability : Json → Except String NameAvailability
  | Json.null => Except.ok emptyNameAvailability
  | Json.obj fields => do
    let m ← decodeStringField fields "message"
    let b ← decodeBoolField fields "nameAvailable"
    let r ← decodeStringField fields "reason"
    Except.ok { Message := m, NameAvailable := b, Reason := r, Response := none }
  | _ =>
    Except.error "json: cannot unmarshal JSON value into mysql.NameAvailability"

/-- The error produced by `azure.WithErrorUnlessStatusCode(http.StatusOK)`
for a non-200 response. -/
def statusCodeErrMsg (code : Nat) : String :=
  "autorest/azure: Service returned an error. Status=" ++ toString code

/-- Embedding of `CheckNameAvailabilityClient.ExecuteResponder`: errors
unless the status code is 200 OK, otherwise unmarshals the JSON body; the
response is attached to the result in every case. -/
def ExecuteResponder (resp : HttpResponseBody) :
    NameAvailability × Option String :=
  if resp.statusCode = 200 then
    match decodeNameAvailability resp.body with
    | Except.ok r => ({ r with Response := some resp }, none)
    | Except.error e =>
      ({ emptyNameAvailability with Response := some resp }, some e)
  else
    ({ emptyNameAvailability with Response := some resp },
      some (statusCodeErrMsg resp.statusCode))

/-- C8 (counterexample): a 200 OK response whose body does not unmarshal
into a `NameAvailability` (here a JSON string) makes the responder return
an error, so success is NOT equivalent to the status code being 200. -/
theorem c8_counterexample :
    (ExecuteResponder { statusCode := 200, body := Json.str "oops" }).2 ≠
      none := by
  simp [ExecuteResponder, decodeNameAvailability]

/-- C8 (amended): the responder succeeds exactly when the status code is
200 AND the body unmarshals into a `NameAvailability`; on success it
returns the unmarshalled value with the response attached, and every
non-200 status code yields an error. -/
theorem c8_execute_responder (resp : HttpResponseBody) :
    ((ExecuteResponder resp).2 = none ↔
      resp.statusCode = 200 ∧
        ∃ r, decodeNameAvailability resp.body = Except.ok r) ∧
    (∀ r, resp.statusCode = 200 →
      decodeNameAvailability resp.body = Except.ok r →
      ExecuteResponder resp = ({ r with Response := some resp }, none)) ∧
    (resp.statusCode ≠ 200 → (ExecuteResponder resp).2 ≠ none) := by
  refine ⟨?_, ?_, ?_⟩
  · by_cases h : resp.statusCode = 200
    · cases hd : decodeNameAvailability resp.body <;>
        simp [ExecuteResponder, h, hd]
    · simp [ExecuteResponder, h]
  · intro r h hd
    simp [ExecuteResponder, h, hd]
  · intro h
    simp [ExecuteResponder, h]

/-- C8 (witness for the amended theorem): a 200 OK response with a decodable
object body succeeds and carries the decoded availability flag. -/
theorem c8_execute_responder_witness :
    ExecuteResponder
        { statusCode := 200,
          body := Json.obj [("nameAvailable", Json.bool true)] } =
      ({ Message := none, NameAvailable := some true, Reason := none,
         Response := some { statusCode := 200,
                            body := Json.obj
                              [("nameAvailable", Json.bool true)] } },
        none) :=
  (c8_execute_responder
      { statusCode := 200,
        body := Json.obj [("nameAvailable", Json.bool true)] }).2.1
    { Message := none, NameAvailable := some true, Reason := none,
      Response := none } rfl rfl

/-- One phase of `Execute` after the validation step. -/
inductive MysqlStep
  | prepareRequest
  | sendRequest
  | respondRequest
deriving DecidableEq, Repr

/-- The validation error returned by `Execute` when
`nameAvailabilityRequest.Name` is nil. -/
def executeValidationErrMsg : String :=
  "mysql.CheckNameAvailabilityClient#Execute: Invalid input: nameAvailabilityRequest.Name cannot be null"

/-- Wrapping applied to a sender failure. -/
def sendFailMsg (e : String) : String :=
  "mysql.CheckNameAvailabilityClient#Execute: Failure sending request: " ++ e

/-- Wrapping applied to a responder failure. -/
def respondFailMsg (e : String) : String :=
  "mysql.CheckNameAvailabilityClient#Execute: Failure responding to request: " ++ e

/-- Embedding of `CheckNameAvailabilityClient.Execute`: validates that the
request name is non-nil, then prepares, sends (via the `send` oracle) and
responds; the third component is the trace of phases performed. -/
def Execute (client : CheckNameAvailabilityClient)
    (send : HttpRequest → Except String HttpResponseBody)
    (nameAvailabilityRequest : NameAvailabilityRequest) :
    NameAvailability × Option String × List MysqlStep :=
  match nameAvailabilityRequest.Name with
  | none => (emptyNameAvailability, some executeValidationErrMsg, [])
  | some _ =>
    let req := ExecutePreparer client nameAvailabilityRequest
    match send req with
    | Except.error e =>
      (emptyNameAvailability, some (sendFailMsg e),
        [MysqlStep.prepareRequest, MysqlStep.sendRequest])
    | Except.ok resp =>
      match ExecuteResponder resp with
      | (result, none) =>
        (result, none,
          [MysqlStep.prepareRequest, MysqlStep.sendRequest,
            MysqlStep.respondRequest])
      | (result, some e) =>
        (result, some (respondFailMsg e),
          [MysqlStep.prepareRequest, MysqlStep.sendRequest,
            MysqlStep.respondRequest])

/-- C9: when the request name is nil, `Execute` returns the validation
error with the empty result value and performs neither the prepare nor the
send phase. -/
theorem c9_execute_validates_name (client : CheckNameAvailabilityClient)
    (send : HttpRequest → Except String HttpResponseBody)
    (r : NameAvailabilityRequest) (h : r.Name = none) :
    Execute client send r =
      (emptyNameAvailability, some executeValidationErrMsg, []) := by
  simp [Execute, h]

/-- C9 (witness): a concrete nil-name request is rejected before any HTTP
work happens. -/
theorem c9_execute_validates_name_witness :
    Execute { BaseURI := "https://management.azure.com",
              SubscriptionID := "sub-1" }
      (fun _ => Except.error "network unavailable")
      { Name := none, Type' := some "Microsoft.DBforMySQL/servers" } =
      (emptyNameAvailability, some executeValidationErrMsg, []) :=
  c9_execute_validates_name _ _ _ rfl
